import Mathlib

/-!
Verification of the claims-resolution / access-gate middleware
(server/middleware/auth.ts) and the free-listing quota gate
(free-ad settings routes and the createProperty handler) of the
real-estate classifieds application.

The JavaScript/TypeScript code is shallowly embedded: request headers,
cookies and decoded token payloads become Lean structures over a small
model of JavaScript values (JVal), the MongoDB collections become lists
and options, and each handler becomes a pure function from its inputs
(request, persisted state, clock) to its HTTP response and the post
state of the stores it may write.
-/

/-- JavaScript String.prototype.toLowerCase restricted to the character
set of the model (computable by kernel reduction, unlike
String.toLower). -/
def strToLower (s : String) : String := ⟨s.data.map Char.toLower⟩

/-- Whitespace test used by the model of String.prototype.trim. -/
def isWsp (c : Char) : Bool := c = ' ' || c = '\t' || c = '\n' || c = '\r'

/-- JavaScript String.prototype.trim. -/
def strTrim (s : String) : String :=
  ⟨((s.data.dropWhile isWsp).reverse.dropWhile isWsp).reverse⟩

/-- JavaScript String.prototype.startsWith. -/
def strStartsWith (s p : String) : Bool := p.data.isPrefixOf s.data

/-- JavaScript String.prototype.slice(n) for a non-negative index. -/
def strDrop (s : String) (n : Nat) : String := ⟨s.data.drop n⟩

/-- Model of a JavaScript value as it appears in a decoded token payload:
a string, a number, a boolean, or null.  A missing (undefined) field is
modelled as Option.none one level up. -/
inductive JVal where
  | str (s : String)
  | num (n : Int)
  | bool (b : Bool)
  | null
deriving Repr, DecidableEq

/-- JavaScript truthiness of a JVal: empty string, 0, false and null are
falsy. -/
def JVal.truthy : JVal → Bool
  | .str s => s ≠ ""
  | .num n => n ≠ 0
  | .bool b => b
  | .null => false

/-- JavaScript String(v) coercion for the values of the model. -/
def JVal.jsToString : JVal → String
  | .str s => s
  | .num n => toString n
  | .bool b => if b then "true" else "false"
  | .null => "null"

/-- True when the optional field is nullish in the JavaScript sense
(undefined or null), i.e. skipped by the ?? operator. -/
def jsNullish : Option JVal → Bool
  | none => true
  | some .null => true
  | some _ => false

/-- Left-to-right ?? chain ending in null: the first non-nullish value,
none when every entry is nullish. -/
def jsCoalesce : List (Option JVal) → Option JVal
  | [] => none
  | v :: rest => if jsNullish v then jsCoalesce rest else v

/-- The nested user object of a token payload (auth.ts reads
p.user.id, p.user._id, p.user.userType, p.user.type, p.user.accountType,
p.user.role, p.user.isAdmin, p.user.email). -/
structure UserClaims where
  id : Option JVal := none
  _id : Option JVal := none
  userType : Option JVal := none
  type : Option JVal := none
  accountType : Option JVal := none
  role : Option JVal := none
  isAdmin : Option JVal := none
  email : Option JVal := none
deriving Repr, DecidableEq

/-- A decoded token payload with every claim name auth.ts inspects. -/
structure Payload where
  userId : Option JVal := none
  id : Option JVal := none
  _id : Option JVal := none
  sub : Option JVal := none
  userType : Option JVal := none
  type : Option JVal := none
  accountType : Option JVal := none
  role : Option JVal := none
  staffRole : Option JVal := none
  permissionRole : Option JVal := none
  isAdmin : Option JVal := none
  admin : Option JVal := none
  email : Option JVal := none
  user : Option UserClaims := none
deriving Repr, DecidableEq

/-- The parts of an incoming request that the middleware reads: the
authorization, x-auth-token and x-admin-token headers and the cookies
token, authToken, adminToken.  none models an absent header/cookie. -/
structure Req where
  authorization : Option String := none
  xAuthToken : Option String := none
  xAdminToken : Option String := none
  cookieToken : Option String := none
  cookieAuthToken : Option String := none
  cookieAdminToken : Option String := none
deriving Repr, DecidableEq

/-- JavaScript || on possibly-absent strings: keeps the left value when it
is truthy (present and non-empty), otherwise yields the right one. -/
def jsOrStr (a b : Option String) : Option String :=
  match a with
  | some s => if s = "" then b else some s
  | none => b

/-- Embedding of pickToken (auth.ts lines 19-33): authorization header
with case-insensitive bearer marker (remainder of the header, trimmed),
then x-auth-token (trimmed), then x-admin-token (trimmed), then the
first truthy of cookies token, authToken, adminToken (trimmed). -/
def pickToken (r : Req) : Option String :=
  let auth := r.authorization.getD ""
  if strStartsWith (strToLower auth) "bearer " then
    some (strTrim (strDrop auth 7))
  else
    let xAuth := r.xAuthToken.getD ""
    let xAdmin := r.xAdminToken.getD ""
    if xAuth ≠ "" then some (strTrim xAuth)
    else if xAdmin ≠ "" then some (strTrim xAdmin)
    else
      match jsOrStr (jsOrStr r.cookieToken r.cookieAuthToken) r.cookieAdminToken with
      | some c => if c = "" then none else some (strTrim c)
      | none => none

/-- Embedding of idFromPayload (auth.ts lines 36-46): the ?? chain over
userId, id, _id, user.id, user._id, sub, followed by the truthiness
guard `id ? String(id) : null`. -/
def idFromPayload (p : Payload) : Option String :=
  match jsCoalesce [p.userId, p.id, p._id,
      p.user.bind UserClaims.id, p.user.bind UserClaims._id, p.sub] with
  | some v => if v.truthy then some v.jsToString else none
  | none => none

/-- Embedding of getUserTypeFromPayload (auth.ts lines 48-57): ?? chain
over userType, type, accountType and the same three under user, then
`t ? String(t).toLowerCase() : undefined`. -/
def getUserTypeFromPayload (p : Payload) : Option String :=
  match jsCoalesce [p.userType, p.type, p.accountType,
      p.user.bind UserClaims.userType, p.user.bind UserClaims.type,
      p.user.bind UserClaims.accountType] with
  | some v => if v.truthy then some (strToLower v.jsToString) else none
  | none => none

/-- Embedding of getRoleFromPayload (auth.ts lines 59-62). -/
def getRoleFromPayload (p : Payload) : Option String :=
  match jsCoalesce [p.role, p.staffRole, p.permissionRole,
      p.user.bind UserClaims.role] with
  | some v => if v.truthy then some (strToLower v.jsToString) else none
  | none => none

/-- Embedding of getIsAdminBool (auth.ts lines 64-71). -/
def getIsAdminBool (p : Payload) : Bool :=
  (match p.isAdmin with | some v => v.truthy | none => false)
  || p.admin = some (.bool true)
  || p.user.bind UserClaims.isAdmin = some (.bool true)
  || ["admin", "staff"].contains ((getUserTypeFromPayload p).getD "")

/-- Embedding of `decoded?.email || decoded?.user?.email`
(auth.ts line 93). -/
def emailFromPayload (p : Payload) : Option JVal :=
  match p.email with
  | some v => if v.truthy then some v else p.user.bind UserClaims.email
  | none => p.user.bind UserClaims.email

/-- The identity fields verifyAndAttach stamps on the request
(req.userId, req.userType, req.role, req.email, req.isAdmin). -/
structure Identity where
  userId : String
  userType : Option String
  role : Option String
  email : Option JVal
  isAdmin : Bool
deriving Repr, DecidableEq

/-- Outcome of a middleware guard: either an HTTP error response was
written, with body success:false and the given error string, and the
downstream handler is never invoked; or the identity fields were
attached to the request and control passed to the next handler. -/
inductive GuardOutcome where
  | reject (status : Nat) (error : String)
  | proceed (ident : Identity)
deriving Repr, DecidableEq

/-- Embedding of verifyAndAttach (auth.ts lines 74-101).  The external
jwt.verify is a parameter: it maps a token string to a decoded payload
or to an error (bad signature, malformed token, expiry). -/
def verifyAndAttach (verify : String → Except Unit Payload) (r : Req) :
    GuardOutcome :=
  match pickToken r with
  | none => .reject 401 "Access token required"
  | some token =>
    if token = "" then .reject 401 "Access token required"
    else
      match verify token with
      | .error _ => .reject 401 "Invalid or expired token"
      | .ok decoded =>
        match idFromPayload decoded with
        | none => .reject 401 "Invalid token (no user id)"
        | some uid =>
          .proceed ⟨uid, getUserTypeFromPayload decoded,
            getRoleFromPayload decoded, emailFromPayload decoded,
            getIsAdminBool decoded⟩

/-- Embedding of authenticateToken (auth.ts lines 104-107): next() runs
exactly when verifyAndAttach succeeded. -/
def authenticateToken (verify : String → Except Unit Payload) (r : Req) :
    GuardOutcome :=
  verifyAndAttach verify r

/-- The fixed staff role → permission-set table inside requirePermission
(auth.ts lines 162-168); an unknown role maps to the empty list. -/
def rolePermissions (role : String) : List String :=
  if role = "super_admin" then ["*"]
  else if role = "content_manager" then
    ["content.view", "content.create", "content.manage", "blog.manage",
     "blog.view"]
  else if role = "sales_manager" then
    ["users.view", "sellers.manage", "sellers.verify", "sellers.view",
     "payments.view", "packages.manage", "ads.view", "analytics.view"]
  else if role = "support_executive" then
    ["users.view", "support.view", "reports.view", "content.view"]
  else if role = "admin" then
    ["content.view", "users.view", "ads.view", "analytics.view"]
  else []

/-- Embedding of requirePermission (auth.ts lines 151-175). -/
def requirePermission (permission : String)
    (verify : String → Except Unit Payload) (r : Req) : GuardOutcome :=
  match verifyAndAttach verify r with
  | .reject s e => .reject s e
  | .proceed i =>
    let userType := strToLower (i.userType.getD "")
    let role := strToLower (i.role.getD "")
    if userType = "admin" then .proceed i
    else if userType = "staff" then
      let perms := rolePermissions role
      if perms.contains "*" || perms.contains permission then .proceed i
      else .reject 403 ("Permission required: " ++ permission)
    else .reject 403 ("Permission required: " ++ permission)


/-- The Quota Settings singleton document of the free_ad_settings
collection (routes file lines 6-10). -/
structure FreeAdSettings where
  maxFreeAdsPerMonth : Int
  numberOfDays : Int
  isActive : Bool
deriving Repr, DecidableEq

/-- Hardcoded defaults of the settings routes file (lines 19-23). -/
def DEFAULT_SETTINGS : FreeAdSettings :=
  { maxFreeAdsPerMonth := 2, numberOfDays := 30, isActive := true }

/-- A document of the properties collection, restricted to the fields
the quota filters and the moderation/payment claims read.  Dates are
epoch milliseconds.  isPaid is none when the field is absent.
packageId is none when the field is absent, some none when it is
present with value null, some (some s) when it holds the string s. -/
structure Listing where
  ownerId : String
  createdAt : Int
  isPaid : Option Bool
  packageId : Option (Option String)
  status : String
  approvalStatus : String
  isApproved : Bool
  paymentStatus : String
  premium : Bool
  title : String
deriving Repr, DecidableEq

/-- Milliseconds per day, as in the windowStart arithmetic of both
call sites. -/
def dayMs : Int := 24 * 60 * 60 * 1000

/-- The count filter of checkUserFreeAdLimit (routes file lines
133-138): ownerId equality, createdAt at or after the window start,
isPaid not equal to true (absent matches), and packageId not existing
on the document. -/
def matchesCheckFilter (uid : String) (windowStart : Int) (d : Listing) :
    Bool :=
  d.ownerId = uid && windowStart ≤ d.createdAt &&
    d.isPaid ≠ some true && d.packageId = none

/-- The count filter of the quota gate in createProperty (handlers file
lines 1136-1144): ownerId equality, createdAt at or after the period
start, and the disjunction of packageId not existing, packageId equal
to null (which in MongoDB also matches an absent field), and isPaid
equal to false (equality with false does not match an absent field). -/
def matchesCreateFilter (uid : String) (periodStart : Int) (d : Listing) :
    Bool :=
  d.ownerId = uid && periodStart ≤ d.createdAt &&
    (d.packageId = none || d.packageId = some none || d.isPaid = some false)

/-- countDocuments over the properties collection for the check-limit
filter. -/
def countCheck (uid : String) (windowStart : Int) (listings : List Listing) :
    Int :=
  ((listings.filter (matchesCheckFilter uid windowStart)).length : Int)

/-- countDocuments over the properties collection for the
createProperty gate filter. -/
def countCreate (uid : String) (periodStart : Int) (listings : List Listing) :
    Int :=
  ((listings.filter (matchesCreateFilter uid periodStart)).length : Int)

/-- Body of the success JSON of the check-limit endpoint.  remaining,
limit and used are none where the handler serialises Infinity or omits
the field (inactive branch). -/
structure CheckLimitData where
  canPostFree : Bool
  remaining : Option Int
  limit : Option Int
  used : Option Int
  periodDays : Int
  nextResetDate : Option Int
  systemActive : Bool
deriving Repr, DecidableEq

/-- Embedding of checkUserFreeAdLimit (routes file lines 101-164).
Inputs: the authenticated user id, the settings store (none when the
singleton document is absent), the properties collection, and the
clock.  Output: the response data and the post state of the settings
store.  When the singleton is absent the handler builds the defaults in
memory only (line 111) and performs no write, so the store is returned
unchanged. -/
def checkUserFreeAdLimit (uid : String) (store : Option FreeAdSettings)
    (listings : List Listing) (now : Int) :
    CheckLimitData × Option FreeAdSettings :=
  let settings := store.getD DEFAULT_SETTINGS
  if !settings.isActive then
    ({ canPostFree := true, remaining := none, limit := none, used := none,
       periodDays := settings.numberOfDays, nextResetDate := none,
       systemActive := false }, store)
  else
    let startDate := now - settings.numberOfDays * dayMs
    let freePostsCount := countCheck uid startDate listings
    let remaining := max 0 (settings.maxFreeAdsPerMonth - freePostsCount)
    ({ canPostFree := decide (0 < remaining), remaining := some remaining,
       limit := some settings.maxFreeAdsPerMonth,
       used := some freePostsCount,
       periodDays := settings.numberOfDays,
       nextResetDate := some (startDate + settings.numberOfDays * dayMs),
       systemActive := true }, store)

/-- The request-body fields of createProperty that determine the
moderation, payment and quota behaviour.  packageId is the raw body
string (none when absent or not a string). -/
structure CreateBody where
  packageId : Option String := none
  premium : Option String := none
  title : String := ""
deriving Repr, DecidableEq

/-- Embedding of the packageId normalisation (handlers file lines
1010-1013): a string body value is trimmed and kept only when
non-empty. -/
def normalizedPackageId (b : CreateBody) : Option String :=
  match b.packageId with
  | some s => if strTrim s = "" then none else some (strTrim s)
  | none => none

/-- Embedding of the propertyData construction of createProperty
(handlers file lines 1016-1101), restricted to the modelled fields. -/
def buildPropertyData (b : CreateBody) (uid : String) (now : Int) :
    Listing :=
  let pid := normalizedPackageId b
  { ownerId := uid
    createdAt := now
    isPaid := some false
    packageId := pid.map some
    status := "inactive"
    approvalStatus := if pid.isSome then "pending_approval" else "pending"
    isApproved := false
    paymentStatus := "unpaid"
    premium := b.premium = some "true" || pid.isSome
    title := b.title }

/-- The environment fallbacks read by createProperty when the settings
singleton is absent (handlers file lines 1119-1129). -/
structure Env where
  FREE_POST_LIMIT : Option Int := none
  FREE_POST_PERIOD_DAYS : Option Int := none
deriving Repr, DecidableEq

/-- The in-memory default settings of the createProperty path:
FREE_POST_LIMIT or 5, FREE_POST_PERIOD_DAYS or 30, active. -/
def createDefaults (env : Env) : FreeAdSettings :=
  { maxFreeAdsPerMonth := env.FREE_POST_LIMIT.getD 5,
    numberOfDays := env.FREE_POST_PERIOD_DAYS.getD 30,
    isActive := true }

/-- The settings value the createProperty gate decides with: the stored
singleton when present, else the environment-derived defaults. -/
def createSettings (store : Option FreeAdSettings) (env : Env) :
    FreeAdSettings :=
  match store with
  | some s => s
  | none => createDefaults env

/-- The freeAdLimit object of the 403 quota response (handlers file
lines 1151-1155). -/
structure FreeAdLimitInfo where
  max : Int
  days : Int
  used : Int
deriving Repr, DecidableEq

/-- Outcome of the createProperty handler from the quota gate on:
either the 403 quota response (success false, limitReached true, the
human message and the freeAdLimit object) with no insert, or the
insertion of the constructed document. -/
inductive CreateOutcome where
  | quotaRejected (status : Nat) (success : Bool) (error : String)
      (limitReached : Bool) (freeAdLimit : FreeAdLimitInfo)
  | inserted (doc : Listing)
deriving Repr, DecidableEq

/-- The error string of the 403 quota response (handlers file line
1149). -/
def quotaErrorMsg (maxAds days : Int) : String :=
  "Free listing limit reached: You can post " ++ toString maxAds ++
    " free ads every " ++ toString days ++
    " days. Please upgrade to a paid package to post more."

/-- Embedding of createProperty (handlers file lines 971-1161) from the
propertyData construction through the quota gate to the insert.
Inputs: the body, the authenticated user id, the settings store, the
process environment, the properties collection and the clock.  Output:
the outcome, the post state of the properties collection and the post
state of the settings store.  The gate runs only when the system is
active and the request carries no packageId (line 1131); when it
denies, nothing is inserted. -/
def createProperty (b : CreateBody) (uid : String)
    (store : Option FreeAdSettings) (env : Env)
    (listings : List Listing) (now : Int) :
    CreateOutcome × List Listing × Option FreeAdSettings :=
  let propertyData := buildPropertyData b uid now
  let freeAdSettings := createSettings store env
  if freeAdSettings.isActive && propertyData.packageId.isNone then
    let periodStart := now - freeAdSettings.numberOfDays * dayMs
    let freePostsCount := countCreate uid periodStart listings
    if freeAdSettings.maxFreeAdsPerMonth ≤ freePostsCount then
      (.quotaRejected 403 false
        (quotaErrorMsg freeAdSettings.maxFreeAdsPerMonth
          freeAdSettings.numberOfDays)
        true
        { max := freeAdSettings.maxFreeAdsPerMonth,
          days := freeAdSettings.numberOfDays, used := freePostsCount },
       listings, store)
    else (.inserted propertyData, listings ++ [propertyData], store)
  else (.inserted propertyData, listings ++ [propertyData], store)

def sampleFreeListing : Listing :=
  ⟨"u", 0, none, none, "inactive", "pending", false, "unpaid", false, "t"⟩

def sampleSettings : FreeAdSettings := ⟨2, 30, true⟩

/-- A listing attached to a package (non-null packageId) whose isPaid
flag is false, as every listing created through createProperty with a
packageId initially is. -/
def packageListing : Listing :=
  ⟨"u1", 0, some false, some (some "pkg1"), "inactive", "pending_approval",
    false, "unpaid", true, "t"⟩

/-- C1: the free-usage count is claimed to exclude any listing with a
non-null packageId in both call sites.  The check-limit filter does
exclude packageListing, but the createProperty gate filter counts it
(its isPaid = false branch of the $or matches), and with limit 1 the
gate consequently denies a package-free creation because of a
package-attached listing. -/
theorem c1_create_gate_counts_package_listing :
    packageListing.packageId = some (some "pkg1") ∧
    matchesCheckFilter "u1" 0 packageListing = false ∧
    matchesCreateFilter "u1" 0 packageListing = true ∧
    (createProperty {} "u1" (some ⟨1, 30, true⟩) {} [packageListing] 0).1 =
      .quotaRejected 403 false (quotaErrorMsg 1 30) true ⟨1, 30, 1⟩ := by
  decide

/-- C2 counterexample: with an absent settings singleton, neither the
check-limit endpoint nor the createProperty quota gate writes anything
to the settings store: after either call the store is still empty,
refuting the claimed upsert of the defaults. -/
theorem c2_counterexample :
    (checkUserFreeAdLimit "u" none [] 0).2 = none ∧
    (createProperty {} "u" none {} [] 0).2.2 = none := by
  decide

/-- C2 amended: in both quota-decision paths the defaults are
materialized in memory only: the settings store is never written (it is
returned unchanged for every input), and an absent singleton yields the
same decision as a store holding the respective in-memory defaults. -/
theorem c2_defaults_in_memory_only (uid : String)
    (store : Option FreeAdSettings) (env : Env) (b : CreateBody)
    (listings : List Listing) (now : Int) :
    (checkUserFreeAdLimit uid store listings now).2 = store ∧
    (createProperty b uid store env listings now).2.2 = store ∧
    (checkUserFreeAdLimit uid none listings now).1 =
      (checkUserFreeAdLimit uid (some DEFAULT_SETTINGS) listings now).1 ∧
    (createProperty b uid none env listings now).1 =
      (createProperty b uid (some (createDefaults env)) env listings
        now).1 := by
  refine ⟨?_, ?_, ?_, ?_⟩
  · unfold checkUserFreeAdLimit
    dsimp only
    split <;> rfl
  · unfold createProperty
    dsimp only
    split
    · split <;> rfl
    · rfl
  · simp only [checkUserFreeAdLimit, Option.getD_some, Option.getD_none]
    split <;> rfl
  · simp only [createProperty, createSettings]
    split
    · split <;> rfl
    · rfl

/-- C3: when the request carries no packageId, the system is active and
the counted usage has reached the configured maximum, createProperty
returns the 403 quota response (success false, limitReached true,
freeAdLimit with max, days and used) and the properties collection is
unchanged; when the request carries a packageId the gate is skipped and
the document is inserted. -/
theorem c3_quota_gate_enforcement (b : CreateBody) (uid : String)
    (store : Option FreeAdSettings) (env : Env) (listings : List Listing)
    (now : Int) :
    ((buildPropertyData b uid now).packageId = none →
      (createSettings store env).isActive = true →
      (createSettings store env).maxFreeAdsPerMonth ≤
        countCreate uid (now - (createSettings store env).numberOfDays * dayMs)
          listings →
      createProperty b uid store env listings now =
        (.quotaRejected 403 false
          (quotaErrorMsg (createSettings store env).maxFreeAdsPerMonth
            (createSettings store env).numberOfDays)
          true
          ⟨(createSettings store env).maxFreeAdsPerMonth,
            (createSettings store env).numberOfDays,
            countCreate uid
              (now - (createSettings store env).numberOfDays * dayMs)
              listings⟩,
         listings, store)) ∧
    ((buildPropertyData b uid now).packageId ≠ none →
      createProperty b uid store env listings now =
        (.inserted (buildPropertyData b uid now),
         listings ++ [buildPropertyData b uid now], store)) := by
  constructor
  · intro h1 h2 h3
    have hpd : (buildPropertyData b uid now).packageId.isNone = true := by
      rw [h1]; rfl
    simp [createProperty, h2, hpd, h3]
  · intro h1
    have hpd : (buildPropertyData b uid now).packageId.isNone = false := by
      cases hp : (buildPropertyData b uid now).packageId with
      | none => exact absurd hp h1
      | some v => rfl
    simp [createProperty, hpd]

/-- A second qualifying free listing of the same owner. -/
def sampleFreeListing2 : Listing :=
  ⟨"u", 1, none, none, "inactive", "pending", false, "unpaid", false, "t2"⟩

/-- Witness for C3: with limit 2 and two counted listings, a creation
without a package is rejected with the 403 quota response and the
collection is unchanged, while the same creation with a packageId is
inserted. -/
theorem c3_quota_gate_enforcement_witness :
    createProperty {} "u" (some sampleSettings) {}
        [sampleFreeListing, sampleFreeListing2] 0 =
      (.quotaRejected 403 false (quotaErrorMsg 2 30) true ⟨2, 30, 2⟩,
       [sampleFreeListing, sampleFreeListing2], some sampleSettings) ∧
    createProperty { packageId := some "pkg9" } "u" (some sampleSettings) {}
        [sampleFreeListing, sampleFreeListing2] 0 =
      (.inserted (buildPropertyData { packageId := some "pkg9" } "u" 0),
       [sampleFreeListing, sampleFreeListing2] ++
         [buildPropertyData { packageId := some "pkg9" } "u" 0],
       some sampleSettings) :=
  ⟨(c3_quota_gate_enforcement {} "u" (some sampleSettings) {}
      [sampleFreeListing, sampleFreeListing2] 0).1
      (by decide) (by decide) (by decide),
   (c3_quota_gate_enforcement { packageId := some "pkg9" } "u"
      (some sampleSettings) {} [sampleFreeListing, sampleFreeListing2] 0).2
      (by decide)⟩

/-- C4: whenever the system is active, the check-limit endpoint returns
remaining equal to max 0 (maxFreeAdsPerMonth minus the counted usage)
and canPostFree exactly when that difference is positive; with limit 2,
a usage count of 2 yields canPostFree false and remaining 0, and a
usage count of 1 yields remaining 1. -/
theorem c4_remaining_formula (uid : String) (store : Option FreeAdSettings)
    (listings : List Listing) (now : Int)
    (hact : (store.getD DEFAULT_SETTINGS).isActive = true) :
    ((checkUserFreeAdLimit uid store listings now).1.remaining =
       some (max 0 ((store.getD DEFAULT_SETTINGS).maxFreeAdsPerMonth -
         countCheck uid
           (now - (store.getD DEFAULT_SETTINGS).numberOfDays * dayMs)
           listings)) ∧
     (checkUserFreeAdLimit uid store listings now).1.canPostFree =
       decide (0 < max 0 ((store.getD DEFAULT_SETTINGS).maxFreeAdsPerMonth -
         countCheck uid
           (now - (store.getD DEFAULT_SETTINGS).numberOfDays * dayMs)
           listings))) ∧
    ((store.getD DEFAULT_SETTINGS).maxFreeAdsPerMonth = 2 →
      (countCheck uid
          (now - (store.getD DEFAULT_SETTINGS).numberOfDays * dayMs)
          listings = 2 →
        (checkUserFreeAdLimit uid store listings now).1.canPostFree = false ∧
        (checkUserFreeAdLimit uid store listings now).1.remaining = some 0) ∧
      (countCheck uid
          (now - (store.getD DEFAULT_SETTINGS).numberOfDays * dayMs)
          listings = 1 →
        (checkUserFreeAdLimit uid store listings now).1.remaining =
          some 1)) := by
  have hb : (!(store.getD DEFAULT_SETTINGS).isActive) = false := by
    rw [hact]; rfl
  refine ⟨⟨?_, ?_⟩, fun hmax => ⟨fun hused => ?_, fun hused => ?_⟩⟩
  · simp [checkUserFreeAdLimit, hb]
  · simp [checkUserFreeAdLimit, hb]
  · simp [checkUserFreeAdLimit, hb, hmax, hused]
  · simp [checkUserFreeAdLimit, hb, hmax, hused]

/-- Witness for C4: limit 2, two counted listings give canPostFree
false and remaining 0; one counted listing gives remaining 1. -/
theorem c4_remaining_formula_witness :
    (checkUserFreeAdLimit "u" (some sampleSettings)
        [sampleFreeListing, sampleFreeListing2] 0).1.canPostFree = false ∧
    (checkUserFreeAdLimit "u" (some sampleSettings)
        [sampleFreeListing, sampleFreeListing2] 0).1.remaining = some 0 ∧
    (checkUserFreeAdLimit "u" (some sampleSettings)
        [sampleFreeListing] 0).1.remaining = some 1 :=
  ⟨(((c4_remaining_formula "u" (some sampleSettings)
      [sampleFreeListing, sampleFreeListing2] 0 (by decide)).2 (by decide)).1
      (by decide)).1,
   (((c4_remaining_formula "u" (some sampleSettings)
      [sampleFreeListing, sampleFreeListing2] 0 (by decide)).2 (by decide)).1
      (by decide)).2,
   ((c4_remaining_formula "u" (some sampleSettings)
      [sampleFreeListing] 0 (by decide)).2 (by decide)).2 (by decide)⟩

/-- C5: with persisted settings whose isActive is false, the
check-limit endpoint answers canPostFree true and systemActive false
for every listings state, and createProperty never returns the quota
rejection: the document is always inserted. -/
theorem c5_disabled_system (uid : String) (s : FreeAdSettings)
    (b : CreateBody) (env : Env) (listings : List Listing) (now : Int)
    (hoff : s.isActive = false) :
    (checkUserFreeAdLimit uid (some s) listings now).1.canPostFree = true ∧
    (checkUserFreeAdLimit uid (some s) listings now).1.systemActive =
      false ∧
    (createProperty b uid (some s) env listings now).1 =
      .inserted (buildPropertyData b uid now) ∧
    (createProperty b uid (some s) env listings now).2.1 =
      listings ++ [buildPropertyData b uid now] := by
  refine ⟨?_, ?_, ?_, ?_⟩ <;>
    simp [checkUserFreeAdLimit, createProperty, createSettings, hoff]

/-- Disabled settings used by the C5 witness. -/
def offSettings : FreeAdSettings := ⟨2, 30, false⟩

/-- Witness for C5: with the disabled settings and a user far over the
limit, the check endpoint still allows and createProperty still
inserts. -/
theorem c5_disabled_system_witness :
    (checkUserFreeAdLimit "u" (some offSettings)
        [sampleFreeListing, sampleFreeListing2] 0).1.canPostFree = true ∧
    (checkUserFreeAdLimit "u" (some offSettings)
        [sampleFreeListing, sampleFreeListing2] 0).1.systemActive = false ∧
    (createProperty {} "u" (some offSettings) {}
        [sampleFreeListing, sampleFreeListing2] 0).1 =
      .inserted (buildPropertyData {} "u" 0) ∧
    (createProperty {} "u" (some offSettings) {}
        [sampleFreeListing, sampleFreeListing2] 0).2.1 =
      [sampleFreeListing, sampleFreeListing2] ++ [buildPropertyData {} "u" 0] :=
  c5_disabled_system "u" offSettings {} {}
    [sampleFreeListing, sampleFreeListing2] 0 (by decide)

/-- JavaScript truthiness of a possibly-absent string: present and
non-empty. -/
def jsTruthyOpt : Option String → Bool
  | some s => s ≠ ""
  | none => false

lemma jsTruthyOpt_false_getD (o : Option String)
    (h : jsTruthyOpt o = false) : o.getD "" = "" := by
  cases o with
  | none => rfl
  | some s =>
    simp only [jsTruthyOpt, ne_eq, decide_not] at h
    simp only [Option.getD_some]
    simpa using h

lemma jsTruthyOpt_true_elim (o : Option String)
    (h : jsTruthyOpt o = true) : ∃ s, o = some s ∧ s ≠ "" := by
  cases o with
  | none => exact absurd h (by decide)
  | some s =>
    refine ⟨s, rfl, ?_⟩
    simpa [jsTruthyOpt] using h

/-- C6 counterexample: for the Authorization header value
"Bearer abc " the claim says the token is the remainder after the
prefix, "abc " with its trailing space; the code trims it and extracts
"abc". -/
theorem c6_counterexample :
    pickToken { authorization := some "Bearer abc " } = some "abc" ∧
    strDrop "Bearer abc " 7 = "abc " ∧
    pickToken { authorization := some "Bearer abc " } ≠
      some (strDrop "Bearer abc " 7) := by
  decide

/-- C6 amended: the credential is picked in the order Authorization
bearer remainder (trimmed), x-auth-token (trimmed), x-admin-token
(trimmed), then cookies token, authToken, adminToken (first truthy,
trimmed); when nothing is picked the guard responds 401 with
error "Access token required" and the downstream handler never runs. -/
theorem c6_token_extraction_order (r : Req)
    (verify : String → Except Unit Payload) :
    (strStartsWith (strToLower (r.authorization.getD "")) "bearer " = true →
      pickToken r = some (strTrim (strDrop (r.authorization.getD "") 7))) ∧
    (strStartsWith (strToLower (r.authorization.getD "")) "bearer " = false →
      jsTruthyOpt r.xAuthToken = true →
      pickToken r = some (strTrim (r.xAuthToken.getD ""))) ∧
    (strStartsWith (strToLower (r.authorization.getD "")) "bearer " = false →
      jsTruthyOpt r.xAuthToken = false → jsTruthyOpt r.xAdminToken = true →
      pickToken r = some (strTrim (r.xAdminToken.getD ""))) ∧
    (strStartsWith (strToLower (r.authorization.getD "")) "bearer " = false →
      jsTruthyOpt r.xAuthToken = false → jsTruthyOpt r.xAdminToken = false →
      (jsTruthyOpt r.cookieToken = true →
        pickToken r = some (strTrim (r.cookieToken.getD ""))) ∧
      (jsTruthyOpt r.cookieToken = false →
        jsTruthyOpt r.cookieAuthToken = true →
        pickToken r = some (strTrim (r.cookieAuthToken.getD ""))) ∧
      (jsTruthyOpt r.cookieToken = false →
        jsTruthyOpt r.cookieAuthToken = false →
        jsTruthyOpt r.cookieAdminToken = true →
        pickToken r = some (strTrim (r.cookieAdminToken.getD ""))) ∧
      (jsTruthyOpt r.cookieToken = false →
        jsTruthyOpt r.cookieAuthToken = false →
        jsTruthyOpt r.cookieAdminToken = false → pickToken r = none)) ∧
    (pickToken r = none →
      authenticateToken verify r = .reject 401 "Access token required") := by
  refine ⟨?_, ?_, ?_, ?_, ?_⟩
  · intro h1
    simp [pickToken, h1]
  · intro h1 h2
    obtain ⟨s, hx, hs⟩ := jsTruthyOpt_true_elim _ h2
    simp [pickToken, h1, hx, hs]
  · intro h1 h2 h3
    obtain ⟨s, hx, hs⟩ := jsTruthyOpt_true_elim _ h3
    have h2e : r.xAuthToken.getD "" = "" := jsTruthyOpt_false_getD _ h2
    simp [pickToken, h1, h2e, hx, hs]
  · intro h1 h2 h3
    have h2e : r.xAuthToken.getD "" = "" := jsTruthyOpt_false_getD _ h2
    have h3e : r.xAdminToken.getD "" = "" := jsTruthyOpt_false_getD _ h3
    refine ⟨?_, ?_, ?_, ?_⟩
    · intro h4
      obtain ⟨s, hc, hs⟩ := jsTruthyOpt_true_elim _ h4
      simp [pickToken, h1, h2e, h3e, hc, jsOrStr, hs]
    · intro h4 h5
      obtain ⟨s, hc, hs⟩ := jsTruthyOpt_true_elim _ h5
      cases hc4 : r.cookieToken with
      | none => simp [pickToken, h1, h2e, h3e, hc4, hc, jsOrStr, hs]
      | some c =>
        have : c = "" := by
          rw [hc4] at h4
          simpa [jsTruthyOpt] using h4
        subst this
        simp [pickToken, h1, h2e, h3e, hc4, hc, jsOrStr, hs]
    · intro h4 h5 h6
      obtain ⟨s, hc, hs⟩ := jsTruthyOpt_true_elim _ h6
      cases hc4 : r.cookieToken with
      | none =>
        cases hc5 : r.cookieAuthToken with
        | none => simp [pickToken, h1, h2e, h3e, hc4, hc5, hc, jsOrStr, hs]
        | some c =>
          have : c = "" := by
            rw [hc5] at h5
            simpa [jsTruthyOpt] using h5
          subst this
          simp [pickToken, h1, h2e, h3e, hc4, hc5, hc, jsOrStr, hs]
      | some c =>
        have : c = "" := by
          rw [hc4] at h4
          simpa [jsTruthyOpt] using h4
        subst this
        cases hc5 : r.cookieAuthToken with
        | none => simp [pickToken, h1, h2e, h3e, hc4, hc5, hc, jsOrStr, hs]
        | some c2 =>
          have : c2 = "" := by
            rw [hc5] at h5
            simpa [jsTruthyOpt] using h5
          subst this
          simp [pickToken, h1, h2e, h3e, hc4, hc5, hc, jsOrStr, hs]
    · intro h4 h5 h6
      have h4e : r.cookieToken.getD "" = "" := jsTruthyOpt_false_getD _ h4
      have h5e : r.cookieAuthToken.getD "" = "" := jsTruthyOpt_false_getD _ h5
      have h6e : r.cookieAdminToken.getD "" = "" := jsTruthyOpt_false_getD _ h6
      cases hc4 : r.cookieToken <;> cases hc5 : r.cookieAuthToken <;>
        cases hc6 : r.cookieAdminToken <;>
          rw [hc4] at h4e <;> rw [hc5] at h5e <;> rw [hc6] at h6e <;>
            simp_all [pickToken, h1, h2e, h3e, jsOrStr]
  · intro h
    simp [authenticateToken, verifyAndAttach, h]

/-- Witness for the amended C6: one concrete request per extraction
level, and the 401 when nothing is present. -/
theorem c6_token_extraction_order_witness :
    pickToken { authorization := some "Bearer tok" } = some "tok" ∧
    pickToken { xAuthToken := some " x1 " } = some "x1" ∧
    pickToken { xAdminToken := some "x2" } = some "x2" ∧
    pickToken { cookieToken := some "c1" } = some "c1" ∧
    pickToken { cookieAuthToken := some "c2" } = some "c2" ∧
    pickToken { cookieAdminToken := some "c3" } = some "c3" ∧
    pickToken {} = none ∧
    authenticateToken (fun _ => .error ()) {} =
      .reject 401 "Access token required" :=
  ⟨(c6_token_extraction_order { authorization := some "Bearer tok" }
      (fun _ => .error ())).1 (by decide),
   (c6_token_extraction_order { xAuthToken := some " x1 " }
      (fun _ => .error ())).2.1 (by decide) (by decide),
   (c6_token_extraction_order { xAdminToken := some "x2" }
      (fun _ => .error ())).2.2.1 (by decide) (by decide) (by decide),
   ((c6_token_extraction_order { cookieToken := some "c1" }
      (fun _ => .error ())).2.2.2.1 (by decide) (by decide) (by decide)).1
      (by decide),
   ((c6_token_extraction_order { cookieAuthToken := some "c2" }
      (fun _ => .error ())).2.2.2.1 (by decide) (by decide) (by decide)).2.1
      (by decide) (by decide),
   ((c6_token_extraction_order { cookieAdminToken := some "c3" }
      (fun _ => .error ())).2.2.2.1 (by decide) (by decide) (by decide)).2.2.1
      (by decide) (by decide) (by decide),
   ((c6_token_extraction_order {} (fun _ => .error ())).2.2.2.1 (by decide)
      (by decide) (by decide)).2.2.2 (by decide) (by decide) (by decide),
   (c6_token_extraction_order {} (fun _ => .error ())).2.2.2.2 (by decide)⟩

/-- Modelled from the spec wording of the resolution rule: the first
present (non-nullish) of p.userId, p.id, p._id, p.user.id, p.user._id,
p.sub, before any coercion. -/
def specFirstId (p : Payload) : Option JVal :=
  jsCoalesce [p.userId, p.id, p._id,
    p.user.bind UserClaims.id, p.user.bind UserClaims._id, p.sub]

lemma jsNullish_none : jsNullish none = true := rfl

lemma idFromPayload_eq_spec (p : Payload) :
    idFromPayload p =
      (match specFirstId p with
       | some v => if v.truthy then some v.jsToString else none
       | none => none) := rfl

/-- C7 counterexample: the payload placing the number 0 under userId
has an identity value present under the first recognized path, and the
claim says subjectId resolves to the string 0; the code treats the
falsy value as missing and rejects with the no-user-id 401. -/
theorem c7_counterexample :
    specFirstId { userId := some (.num 0) } = some (.num 0) ∧
    JVal.jsToString (.num 0) = "0" ∧
    idFromPayload { userId := some (.num 0) } = none ∧
    verifyAndAttach (fun _ => .ok { userId := some (.num 0) })
      { authorization := some "Bearer t" } =
      .reject 401 "Invalid token (no user id)" := by
  decide

/-- C7 amended: the resolved subjectId is the first non-nullish of the
six recognized paths coerced to string, provided that value is truthy;
two payload shapes placing the same truthy identity value under any
single path resolve the same subjectId; when no path holds a truthy
value the resolver rejects 401 with the no-user-id error and attaches
nothing. -/
theorem c7_subject_resolution (p : Payload) (v : JVal) (r : Req)
    (verify : String → Except Unit Payload) (t : String) :
    (specFirstId p = some v → v.truthy = true →
      idFromPayload p = some v.jsToString) ∧
    (v.truthy = true →
      idFromPayload { userId := some v } = some v.jsToString ∧
      idFromPayload { id := some v } = some v.jsToString ∧
      idFromPayload { _id := some v } = some v.jsToString ∧
      idFromPayload { user := some { id := some v } } = some v.jsToString ∧
      idFromPayload { user := some { _id := some v } } =
        some v.jsToString ∧
      idFromPayload { sub := some v } = some v.jsToString) ∧
    (pickToken r = some t → t ≠ "" → verify t = .ok p →
      (∀ w, specFirstId p = some w → w.truthy = false) →
      verifyAndAttach verify r =
        .reject 401 "Invalid token (no user id)") := by
  refine ⟨?_, ?_, ?_⟩
  · intro h ht
    rw [idFromPayload_eq_spec, h]
    simp [ht]
  · intro ht
    have hv : jsNullish (some v) = false := by
      cases v <;> simp_all [jsNullish, JVal.truthy]
    refine ⟨?_, ?_, ?_, ?_, ?_, ?_⟩ <;>
      simp [idFromPayload, jsCoalesce, jsNullish_none, hv, ht, Option.bind]
  · intro hp hne hv hfalsy
    have hid : idFromPayload p = none := by
      rw [idFromPayload_eq_spec]
      cases hsp : specFirstId p with
      | none => rfl
      | some w => simp [hfalsy w hsp]
    simp [verifyAndAttach, hp, hne, hv, hid]

/-- Witness for the amended C7: the same identity string placed under
each of the six paths resolves identically, and a payload whose only
identity value is the falsy 0 is rejected. -/
theorem c7_subject_resolution_witness :
    idFromPayload { id := some (.str "u9") } = some "u9" ∧
    (idFromPayload { userId := some (.str "u9") } = some "u9" ∧
     idFromPayload { id := some (.str "u9") } = some "u9" ∧
     idFromPayload { _id := some (.str "u9") } = some "u9" ∧
     idFromPayload { user := some { id := some (.str "u9") } } =
       some "u9" ∧
     idFromPayload { user := some { _id := some (.str "u9") } } =
       some "u9" ∧
     idFromPayload { sub := some (.str "u9") } = some "u9") ∧
    verifyAndAttach (fun _ => .ok { userId := some (.num 0) })
      { authorization := some "Bearer t" } =
      .reject 401 "Invalid token (no user id)" :=
  ⟨(c7_subject_resolution { id := some (.str "u9") } (.str "u9")
      { authorization := some "Bearer t" } (fun _ => .ok {}) "t").1
      (by decide) (by decide),
   (c7_subject_resolution { id := some (.str "u9") } (.str "u9")
      { authorization := some "Bearer t" } (fun _ => .ok {}) "t").2.1
      (by decide),
   (c7_subject_resolution { userId := some (.num 0) } (.str "u9")
      { authorization := some "Bearer t" }
      (fun _ => .ok { userId := some (.num 0) }) "t").2.2
      (by decide) (by decide) rfl
      (by
        intro w hw
        have hw2 : (some (JVal.num 0) : Option JVal) = some w := hw
        injection hw2 with h
        subst h
        decide)⟩

/-- C8: an identity with accountType admin passes requirePermission for
every permission name; a staff identity with permissionRole
sales_manager passes sellers.manage and is denied content.manage with
the 403 permission error; a staff identity whose role is absent from
the fixed table is denied every name; an identity that is neither admin
nor staff is denied every name. -/
theorem c8_permission_matrix (verify : String → Except Unit Payload)
    (r : Req) (i : Identity) (name : String)
    (hok : verifyAndAttach verify r = .proceed i) :
    (i.userType = some "admin" →
      requirePermission name verify r = .proceed i) ∧
    (i.userType = some "staff" → i.role = some "sales_manager" →
      requirePermission "sellers.manage" verify r = .proceed i ∧
      requirePermission "content.manage" verify r =
        .reject 403 "Permission required: content.manage") ∧
    (i.userType = some "staff" →
      rolePermissions (strToLower (i.role.getD "")) = [] →
      requirePermission name verify r =
        .reject 403 ("Permission required: " ++ name)) ∧
    (strToLower (i.userType.getD "") ≠ "admin" →
      strToLower (i.userType.getD "") ≠ "staff" →
      requirePermission name verify r =
        .reject 403 ("Permission required: " ++ name)) := by
  refine ⟨?_, ?_, ?_, ?_⟩
  · intro h
    unfold requirePermission
    rw [hok]
    dsimp only
    rw [h]
    rfl
  · intro h1 h2
    constructor <;>
      · unfold requirePermission
        rw [hok]
        dsimp only
        rw [h1, h2]
        rfl
  · intro h1 h2
    unfold requirePermission
    rw [hok]
    dsimp only
    rw [h1]
    rw [h2]
    rfl
  · intro h1 h2
    unfold requirePermission
    rw [hok]
    dsimp only
    rw [if_neg h1, if_neg h2]

/-- Payload of an admin account used by the C8 witness. -/
def pAdminPayload : Payload :=
  { userId := some (.str "1"), userType := some (.str "admin") }

/-- Payload of a staff account with the sales_manager role. -/
def pSalesPayload : Payload :=
  { userId := some (.str "2"), userType := some (.str "staff"),
    role := some (.str "sales_manager") }

/-- Payload of a staff account with a role outside the fixed table. -/
def pUnknownPayload : Payload :=
  { userId := some (.str "3"), userType := some (.str "staff"),
    role := some (.str "intern") }

/-- Payload of a seller account (neither admin nor staff). -/
def pSellerPayload : Payload :=
  { userId := some (.str "4"), userType := some (.str "seller") }

/-- Request carrying a bearer token, used by the C8 witness. -/
def reqBearer : Req := { authorization := some "Bearer t" }

/-- Witness for C8: the four rows of the permission matrix evaluated on
concrete verified identities. -/
theorem c8_permission_matrix_witness :
    requirePermission "anything.at.all" (fun _ => .ok pAdminPayload)
      reqBearer = .proceed ⟨"1", some "admin", none, none, true⟩ ∧
    requirePermission "sellers.manage" (fun _ => .ok pSalesPayload)
      reqBearer = .proceed ⟨"2", some "staff", some "sales_manager", none,
        true⟩ ∧
    requirePermission "content.manage" (fun _ => .ok pSalesPayload)
      reqBearer = .reject 403 "Permission required: content.manage" ∧
    requirePermission "users.view" (fun _ => .ok pUnknownPayload)
      reqBearer = .reject 403 "Permission required: users.view" ∧
    requirePermission "users.view" (fun _ => .ok pSellerPayload)
      reqBearer = .reject 403 "Permission required: users.view" :=
  ⟨(c8_permission_matrix (fun _ => .ok pAdminPayload) reqBearer
      ⟨"1", some "admin", none, none, true⟩ "anything.at.all"
      (by decide)).1 rfl,
   ((c8_permission_matrix (fun _ => .ok pSalesPayload) reqBearer
      ⟨"2", some "staff", some "sales_manager", none, true⟩ "x"
      (by decide)).2.1 rfl rfl).1,
   ((c8_permission_matrix (fun _ => .ok pSalesPayload) reqBearer
      ⟨"2", some "staff", some "sales_manager", none, true⟩ "x"
      (by decide)).2.1 rfl rfl).2,
   (c8_permission_matrix (fun _ => .ok pUnknownPayload) reqBearer
      ⟨"3", some "staff", some "intern", none, true⟩ "users.view"
      (by decide)).2.2.1 rfl (by decide),
   (c8_permission_matrix (fun _ => .ok pSellerPayload) reqBearer
      ⟨"4", some "seller", none, none, false⟩ "users.view"
      (by decide)).2.2.2 (by decide) (by decide)⟩

/-- C9: every token reaching verification that the verifier rejects
(bad signature, malformed, expired) makes the resolver respond 401 with
the invalid-or-expired error; no identity is attached and the
downstream handler never runs (the guard outcome is a rejection, not a
proceed). -/
theorem c9_invalid_token_rejected (verify : String → Except Unit Payload)
    (r : Req) (t : String) (hpick : pickToken r = some t) (hne : t ≠ "")
    (hver : verify t = .error ()) :
    authenticateToken verify r =
      .reject 401 "Invalid or expired token" := by
  simp [authenticateToken, verifyAndAttach, hpick, hne, hver]

/-- Witness for C9: a verifier failing on every token yields the 401
invalid-token response for a bearer request. -/
theorem c9_invalid_token_rejected_witness :
    authenticateToken (fun _ => .error ())
      { authorization := some "Bearer bad" } =
      .reject 401 "Invalid or expired token" :=
  c9_invalid_token_rejected (fun _ => .error ())
    { authorization := some "Bearer bad" } "bad" (by decide) (by decide)
    rfl

/-- C10: every document inserted by createProperty has status inactive,
isApproved false, isPaid false, paymentStatus unpaid, and an
approvalStatus of pending_approval exactly when the request carried a
packageId and pending otherwise, whatever the rest of the request. -/
theorem c10_moderation_payment_invariants (b : CreateBody) (uid : String)
    (store : Option FreeAdSettings) (env : Env) (listings : List Listing)
    (now : Int) (doc : Listing)
    (hins : (createProperty b uid store env listings now).1 =
      .inserted doc) :
    doc.status = "inactive" ∧ doc.isApproved = false ∧
    doc.isPaid = some false ∧ doc.paymentStatus = "unpaid" ∧
    doc.approvalStatus = (if (normalizedPackageId b).isSome then
      "pending_approval" else "pending") := by
  have hdoc : doc = buildPropertyData b uid now := by
    unfold createProperty at hins
    dsimp only at hins
    split at hins
    · split at hins
      · simp at hins
      · have hx := hins
        simp at hx
        exact hx.symm
    · have hx := hins
      simp at hx
      exact hx.symm
  subst hdoc
  exact ⟨rfl, rfl, rfl, rfl, rfl⟩

/-- Witness for C10: a concrete package-free creation yields a pending,
inactive, unpaid document. -/
theorem c10_moderation_payment_invariants_witness :
    (buildPropertyData {} "u" 0).status = "inactive" ∧
    (buildPropertyData {} "u" 0).isApproved = false ∧
    (buildPropertyData {} "u" 0).isPaid = some false ∧
    (buildPropertyData {} "u" 0).paymentStatus = "unpaid" ∧
    (buildPropertyData {} "u" 0).approvalStatus = "pending" :=
  c10_moderation_payment_invariants {} "u" none {} [] 0
    (buildPropertyData {} "u" 0) (by decide)
